import Mathlib

/-!
Shallow embedding of the aggregation/evaluation core of
`training_analyzer_html.py` (Österlen Spring Trail training analyzer).

Modelling conventions:
* Python strings are modelled as `List Char` (so splitting and parsing
  are structural and kernel-evaluable).
* Python floats are modelled as `ℚ` (exact arithmetic); the pandas/NumPy
  `NaN` is modelled by `Option ℚ` with `none` playing the role of `NaN`
  (in this program a `NaN` arises only as the mean of an empty series,
  and every ordered comparison against `NaN` is false, which the
  `Option` encoding captures).
* Dates are modelled at day granularity as `ℤ` (days since an epoch), so
  `pd.Timestamp` subtraction followed by `.days` becomes `ℤ` subtraction.
* Python `int(...)` / `float(...)` are modelled on the sign+digits
  (resp. sign+digits+decimal-point) fragment exercised by the duration
  and numeric columns; inputs outside the fragment map to `none`,
  matching the `except: return 0` / fatal-load-error paths.
* The whole-run-fatal paths (empty filtered frame, so that
  `running['Date'].max()` is `NaT` and the subsequent `.days` access has
  no value) are modelled by `Option`, the evaluator returning `none`.
-/

/-- Python `str.split(sep)` for a one-character separator. Note that
`"".split(':')` is `[""]`, so the empty character list maps to `[[]]`. -/
def splitOnChar (sep : Char) : List Char → List (List Char)
  | [] => [[]]
  | c :: rest =>
    let r := splitOnChar sep rest
    if c = sep then [] :: r
    else
      match r with
      | [] => [[c]]
      | h :: t => (c :: h) :: t

/-- Numeric value of a digit string, most significant digit first. -/
def natOfDigits (l : List Char) : Nat :=
  l.foldl (fun acc c => 10 * acc + (c.toNat - 48)) 0

/-- A non-empty all-digit string parsed as a natural number. -/
def parseNatDigits (l : List Char) : Option Nat :=
  if l ≠ [] ∧ l.all Char.isDigit then some (natOfDigits l) else none

/-- Python `int(...)` on the optional-sign + digits fragment. -/
def parseInt (l : List Char) : Option Int :=
  match l with
  | '-' :: rest => (parseNatDigits rest).map (fun (n : ℕ) => -(n : Int))
  | '+' :: rest => (parseNatDigits rest).map (fun (n : ℕ) => (n : Int))
  | _ => (parseNatDigits l).map (fun (n : ℕ) => (n : Int))

/-- Unsigned part of Python `float(...)`: digits with an optional decimal
point, at least one digit overall. -/
def floatCore (l : List Char) : Option ℚ :=
  match splitOnChar '.' l with
  | [a] => (parseNatDigits a).map (fun (n : ℕ) => (n : ℚ))
  | [a, b] =>
    if a.all Char.isDigit ∧ b.all Char.isDigit ∧ (a ≠ [] ∨ b ≠ []) then
      some ((natOfDigits a : ℚ) + (natOfDigits b : ℚ) / 10 ^ b.length)
    else none
  | _ => none

/-- Python `float(...)` on the optional-sign + digits + optional decimal
point fragment. -/
def parseFloatQ (l : List Char) : Option ℚ :=
  match l with
  | '-' :: rest => (floatCore rest).map (fun q => -q)
  | '+' :: rest => floatCore rest
  | _ => floatCore l

/-- The comma-stripping of `_clean_data`:
`.astype(str).str.replace(',', '')` removes every comma. -/
def stripCommas (l : List Char) : List Char :=
  l.filter (fun c => c ≠ ',')

/-- One Distance/Calories cell of `_clean_data`: strip commas, then
`astype(float)`; `none` is the fatal-load-error case. -/
def cleanValue (l : List Char) : Option ℚ :=
  parseFloatQ (stripCommas l)

/-- `time_to_minutes` of `_clean_data`: `pd.isna` input (modelled as
`none`) gives `0`; otherwise split on `':'`; three parts give
`int(h)*60 + int(m) + float(s)/60`, two parts `int(m) + float(s)/60`;
any other number of parts, or any failing parse (the `except` branch),
gives `0`. -/
def time_to_minutes (t : Option (List Char)) : ℚ :=
  match t with
  | none => 0
  | some s =>
    match splitOnChar ':' s with
    | [h, m, sec] =>
      match parseInt h, parseInt m, parseFloatQ sec with
      | some hv, some mv, some sv => hv * 60 + mv + sv / 60
      | _, _, _ => 0
    | [m, sec] =>
      match parseInt m, parseFloatQ sec with
      | some mv, some sv => mv + sv / 60
      | _, _ => 0
    | _ => 0

/-- One normalized activity row (the columns the evaluator reads).
Optional heart-rate / training-effect cells model per-cell `NaN`. -/
structure Record where
  date : Int
  activityType : String
  distance : ℚ
  calories : ℚ
  timeMinutes : ℚ
  totalAscent : ℚ
  totalDescent : ℚ
  avgHR : Option ℚ
  maxHR : Option ℚ
  aerobicTE : Option ℚ
deriving DecidableEq

/-- `series.max()` of a column, `none` for an empty frame (`NaT`). -/
def listMax? : List Int → Option Int
  | [] => none
  | x :: t =>
    match listMax? t with
    | none => some x
    | some y => some (if x ≤ y then y else x)

/-- `series.mean()` with pandas `skipna` semantics applied to the already
populated values: the mean of an empty series is `NaN` (`none`). -/
def meanQ? (l : List ℚ) : Option ℚ :=
  if l = [] then none else some (l.sum / l.length)

/-- `df.tail(n)`: the last `min n (length l)` rows in order. -/
def tailN (n : Nat) (l : List α) : List α :=
  l.drop (l.length - n)

/-- A float comparison `x > c` where `x` may be `NaN` (`none`): every
ordered comparison against `NaN` is false. -/
def nanGT (x : Option ℚ) (c : ℚ) : Bool :=
  match x with
  | none => false
  | some v => decide (c < v)

/-- `get_running_data`: filter to rows whose `Activity Type` is
`"Running"`, in original order. -/
def get_running_data (df : List Record) : List Record :=
  df.filter (fun r => decide (r.activityType = "Running"))

/-- Recovery classification of `generate_html_report`, over
`weeks_since`; returns (status badge, CSS severity class). -/
def recovery_status (weeks_since : ℚ) : String × String :=
  if weeks_since < 2 then ("EARLY RECOVERY", "warning")
  else if weeks_since < 4 then ("RECOVERY PHASE", "warning")
  else ("RECOVERED", "success")

/-- One entry of the `plan_targets` dict. -/
structure PlanTarget where
  distance : ℚ
  elevation : ℚ
  runs : ℚ
deriving DecidableEq

/-- The `plan_targets` dict, weeks 1..14. -/
def plan_table : List (Nat × PlanTarget) :=
  [(1, ⟨35, 200, 4⟩), (2, ⟨38, 250, 4⟩), (3, ⟨42, 280, 4⟩),
   (4, ⟨45, 300, 4⟩), (5, ⟨45, 400, 4⟩), (6, ⟨48, 450, 4⟩),
   (7, ⟨52, 550, 4⟩), (8, ⟨55, 600, 4⟩), (9, ⟨52, 650, 4⟩),
   (10, ⟨56, 700, 4⟩), (11, ⟨60, 850, 5⟩), (12, ⟨60, 900, 5⟩),
   (13, ⟨55, 750, 4⟩), (14, ⟨48, 600, 4⟩)]

/-- `plan_targets.get(current_week_of_plan, {40, 300, 4})`. -/
def plan_targets (week : Nat) : PlanTarget :=
  match plan_table.lookup week with
  | some t => t
  | none => ⟨40, 300, 4⟩

/-- A stored progress percentage:
`(actual / target) * 100 if target > 0 else 0`. -/
def pctOf (actual target : ℚ) : ℚ :=
  if 0 < target then actual / target * 100 else 0

/-- The display layer's progress-bar width, `min(pct, 100)`. -/
def bar_width (p : ℚ) : ℚ :=
  min p 100

/-- Adherence assessment of `generate_html_report` over the two stored
percentages; returns (assessment, CSS severity class). -/
def assessment (dist_pct elev_pct : ℚ) : String × String :=
  if 90 ≤ dist_pct ∧ 80 ≤ elev_pct then ("ON TRACK", "success")
  else if 75 ≤ dist_pct then ("SLIGHTLY BEHIND", "warning")
  else ("BEHIND TARGET", "danger")

/-- Training-load classification of `generate_html_report`. The argument
is the `Aerobic TE` column of the last-10 window: `none` when the column
is absent from the frame, otherwise the list of cells (`none` cells are
`NaN`). `avg_te` is the column mean, `NaN` for an all-`NaN` column, and
a `NaN` mean fails both `>` comparisons. -/
def load_status (teColumn : Option (List (Option ℚ))) : String × String :=
  match teColumn with
  | none => ("N/A", "secondary")
  | some vals =>
    let avg_te := meanQ? (vals.filterMap id)
    if nanGT avg_te 4 then ("HIGH LOAD", "danger")
    else if nanGT avg_te 3 then ("MODERATE LOAD", "success")
    else ("LOW LOAD", "warning")

/-- Phase lookup of `generate_html_report`: (phase, focus line). -/
def phase_info (week : Nat) : String × String :=
  if week ≤ 4 then ("BASE BUILDING", "Rebuild volume gradually, introduce hill work")
  else if week ≤ 8 then ("HILL STRENGTH", "Progressive hill intervals, downhill practice")
  else if week ≤ 14 then ("SPECIFIC ENDURANCE", "Long runs with elevation, tempo on hills")
  else if week ≤ 18 then ("RACE SIMULATION", "Race-pace efforts, practice nutrition")
  else ("TAPER", "Maintain intensity, reduce volume")

/-- `recent_4wks` of `generate_html_report`: rows with
`date >= max(date) - 28 days`; empty when the frame is empty (an `NaT`
cutoff compares false against every date). -/
def recent_4wks (running : List Record) : List Record :=
  match listMax? (running.map Record.date) with
  | none => []
  | some m => running.filter (fun r => decide (m - 28 ≤ r.date))

/-- The trailing-4-week statistics of `generate_html_report`. -/
structure FourWeekStats where
  total_distance : ℚ
  total_elevation : ℚ
  total_runs : Nat
  avg_distance : ℚ
  avg_weekly_dist : ℚ
  avg_weekly_elev : ℚ
deriving DecidableEq

/-- Lines 118-124 of `generate_html_report`: totals over `recent_4wks`,
per-run mean guarded against an empty window, and weekly averages with
the fixed divisor `4`. -/
def four_week_stats (running : List Record) : FourWeekStats :=
  let recent := recent_4wks running
  let total_distance := (recent.map Record.distance).sum
  let total_elevation := (recent.map Record.totalAscent).sum
  let total_runs := recent.length
  { total_distance := total_distance
    total_elevation := total_elevation
    total_runs := total_runs
    avg_distance := if 0 < total_runs then total_distance / total_runs else 0
    avg_weekly_dist := total_distance / 4
    avg_weekly_elev := total_elevation / 4 }

/-- The last-7-days window of `generate_html_report`: rows with
`max(date) - 7 <= date <= max(date)`, both ends inclusive. -/
def last_week_window (running : List Record) : List Record :=
  match listMax? (running.map Record.date) with
  | none => []
  | some m => running.filter (fun r => decide (m - 7 ≤ r.date) && decide (r.date ≤ m))

/-- The calendar-week key of `recent['Date'].dt.to_period('W')`: a fixed
Monday-aligned 7-day partition of day numbers (day 0 being a Thursday of
the epoch), stable and chronologically monotone in the date. -/
def weekOf (d : Int) : Int :=
  (d + 3).fdiv 7

/-- Round half to even at integer precision (NumPy rounding). -/
def roundHalfEven (q : ℚ) : Int :=
  if q - ⌊q⌋ < 1 / 2 then ⌊q⌋
  else if 1 / 2 < q - ⌊q⌋ then ⌊q⌋ + 1
  else if ⌊q⌋ % 2 = 0 then ⌊q⌋ else ⌊q⌋ + 1

/-- `.round(1)` of the weekly aggregation frame. -/
def round1 (q : ℚ) : ℚ :=
  (roundHalfEven (q * 10) : ℚ) / 10

/-- One row of the weekly aggregation of `_get_weekly_data`. `count` is
the `'Activity Type': 'count'` aggregate; `avg_hr` is a mean, hence
`NaN` (`none`) for a group with no populated heart-rate cell; the
`Aerobic TE` aggregate is a pandas sum, which is `0` over an all-`NaN`
group. -/
structure WeeklyBucket where
  week : Int
  distance : ℚ
  total_ascent : ℚ
  time_minutes : ℚ
  count : Nat
  avg_hr : Option ℚ
  aerobic_te : ℚ
deriving DecidableEq

/-- The aggregates of one week group of `_get_weekly_data` (the group of
`recent` rows whose week key is `k`), `.round(1)` applied. -/
def mkBucket (recent : List Record) (k : Int) : WeeklyBucket :=
  let grp := recent.filter (fun r => decide (weekOf r.date = k))
  { week := k
    distance := round1 (grp.map Record.distance).sum
    total_ascent := round1 (grp.map Record.totalAscent).sum
    time_minutes := round1 (grp.map Record.timeMinutes).sum
    count := grp.length
    avg_hr := (meanQ? (grp.filterMap Record.avgHR)).map round1
    aerobic_te := round1 (grp.filterMap Record.aerobicTE).sum }

/-- `_get_weekly_data(weeks)`: filter to running, cut off at
`max(date) - weeks*7`, group by calendar week and aggregate; pandas
`groupby` emits the groups sorted by key ascending. -/
def get_weekly_data (df : List Record) (weeks : Nat) : List WeeklyBucket :=
  let running := get_running_data df
  match listMax? (running.map Record.date) with
  | none => []
  | some m =>
    let recent := running.filter (fun r => decide (m - 7 * (weeks : Int) ≤ r.date))
    let keys := List.insertionSort (· ≤ ·) ((recent.map (fun r => weekOf r.date)).dedup)
    keys.map (mkBucket recent)

/-- The analyzer's state after `__init__`/`_clean_data`: the normalized
frame, which optional columns the CSV had, and the two fixed reference
dates. -/
structure AnalyzerState where
  df : List Record
  hasAvgHR : Bool
  hasMaxHR : Bool
  hasAerobicTE : Bool
  marathon_date : Int
  race_date : Int
deriving DecidableEq

/-- Every value `generate_html_report` computes and renders (the
evaluation result consumed by the HTML template). -/
structure EvalResult where
  days_since_marathon : Int
  weeks_since : ℚ
  post_marathon_runs : Nat
  post_marathon_distance : ℚ
  post_marathon_avg : ℚ
  recovery : String × String
  four_week : FourWeekStats
  week_distance : ℚ
  week_elevation : ℚ
  week_runs : Nat
  target : PlanTarget
  dist_pct : ℚ
  elev_pct : ℚ
  runs_pct : ℚ
  assess : String × String
  avg_hr : Option ℚ
  max_hr : Option ℚ
  avg_te : Option ℚ
  load : String × String
  days_to_race : Int
  weeks_to_race : ℚ
  phase : String × String
  chart : List WeeklyBucket
deriving DecidableEq

/-- The computation of `generate_html_report` (lines 92-217), with the
wall-clock read made an explicit `now` input. `none` models the
fatal path where the filtered frame is empty and `max(date)` is `NaT`. -/
def generate_html_report (st : AnalyzerState) (current_week_of_plan : Nat)
    (now : Int) : Option EvalResult :=
  let running := get_running_data st.df
  match listMax? (running.map Record.date) with
  | none => none
  | some maxDate =>
    let days_since_marathon := maxDate - st.marathon_date
    let weeks_since : ℚ := (days_since_marathon : ℚ) / 7
    let post_marathon := running.filter (fun r => decide (st.marathon_date < r.date))
    let post_marathon_distance := (post_marathon.map Record.distance).sum
    let last_week := last_week_window running
    let week_distance := (last_week.map Record.distance).sum
    let week_elevation := (last_week.map Record.totalAscent).sum
    let week_runs := last_week.length
    let target := plan_targets current_week_of_plan
    let dist_pct := pctOf week_distance target.distance
    let elev_pct := pctOf week_elevation target.elevation
    let runs_pct := pctOf (week_runs : ℚ) target.runs
    let recent_10 := tailN 10 running
    some
      { days_since_marathon := days_since_marathon
        weeks_since := weeks_since
        post_marathon_runs := post_marathon.length
        post_marathon_distance := post_marathon_distance
        post_marathon_avg :=
          if 0 < post_marathon.length then
            post_marathon_distance / post_marathon.length
          else 0
        recovery := recovery_status weeks_since
        four_week := four_week_stats running
        week_distance := week_distance
        week_elevation := week_elevation
        week_runs := week_runs
        target := target
        dist_pct := dist_pct
        elev_pct := elev_pct
        runs_pct := runs_pct
        assess := assessment dist_pct elev_pct
        avg_hr := if st.hasAvgHR then meanQ? (recent_10.filterMap Record.avgHR) else some 0
        max_hr := if st.hasMaxHR then meanQ? (recent_10.filterMap Record.maxHR) else some 0
        avg_te := if st.hasAerobicTE then meanQ? (recent_10.filterMap Record.aerobicTE) else some 0
        load := load_status (if st.hasAerobicTE then some (recent_10.map Record.aerobicTE) else none)
        days_to_race := st.race_date - now
        weeks_to_race := ((st.race_date - now : Int) : ℚ) / 7
        phase := phase_info current_week_of_plan
        chart := get_weekly_data st.df 8 }

/-- The report run as a state transformer over the analyzer state, making
explicit that the evaluation only reads the frame: the state it returns
is the state it was given. -/
def generate_html_report_st (st : AnalyzerState) (current_week_of_plan : Nat)
    (now : Int) : Option EvalResult × AnalyzerState :=
  (generate_html_report st current_week_of_plan now, st)

/-! ## Theorems -/

/-- C1: for every duration string, the conversion to minutes splits on
`':'`: three parts that all parse give `H*60 + M + S/60`, two parts give
`M + S/60`, any failing parse or other shape gives `0`; in particular
`"1:02:30"` maps to `62.5`, `"45:00"` to `45.0` and `""` to `0.0`. -/
theorem c1_time_to_minutes :
    (∀ s a b c hv mv sv, splitOnChar ':' s = [a, b, c] →
      parseInt a = some hv → parseInt b = some mv → parseFloatQ c = some sv →
      time_to_minutes (some s) = hv * 60 + mv + sv / 60) ∧
    (∀ s a b c, splitOnChar ':' s = [a, b, c] →
      parseInt a = none ∨ parseInt b = none ∨ parseFloatQ c = none →
      time_to_minutes (some s) = 0) ∧
    (∀ s a b mv sv, splitOnChar ':' s = [a, b] →
      parseInt a = some mv → parseFloatQ b = some sv →
      time_to_minutes (some s) = mv + sv / 60) ∧
    (∀ s a b, splitOnChar ':' s = [a, b] →
      parseInt a = none ∨ parseFloatQ b = none →
      time_to_minutes (some s) = 0) ∧
    (∀ s, (splitOnChar ':' s).length ≠ 3 → (splitOnChar ':' s).length ≠ 2 →
      time_to_minutes (some s) = 0) ∧
    time_to_minutes (some "1:02:30".toList) = 125 / 2 ∧
    time_to_minutes (some "45:00".toList) = 45 ∧
    time_to_minutes (some "".toList) = 0 ∧
    time_to_minutes none = 0 := by
  refine ⟨?_, ?_, ?_, ?_, ?_, ?_, ?_, rfl, rfl⟩
  · intro s a b c hv mv sv hs ha hb hc
    simp [time_to_minutes, hs, ha, hb, hc]
  · intro s a b c hs h
    rcases h with h | h | h <;> simp [time_to_minutes, hs, h] <;>
      rcases hx : parseInt a with _ | v <;> rcases hy : parseInt b with _ | w <;> simp
  · intro s a b mv sv hs ha hb
    simp [time_to_minutes, hs, ha, hb]
  · intro s a b hs h
    rcases h with h | h <;> simp [time_to_minutes, hs, h] <;>
      rcases hx : parseInt a with _ | v <;> simp
  · intro s h3 h2
    rcases hs : splitOnChar ':' s with _ | ⟨a, _ | ⟨b, _ | ⟨c, t⟩⟩⟩ <;>
      simp [time_to_minutes, hs] <;> simp [hs] at h3 h2 <;> simp_all
  · have h : time_to_minutes (some "1:02:30".toList)
        = ((1 : ℤ) : ℚ) * 60 + ((2 : ℤ) : ℚ) + ((30 : ℕ) : ℚ) / 60 := rfl
    rw [h]; norm_num
  · have h : time_to_minutes (some "45:00".toList)
        = ((45 : ℤ) : ℚ) + ((0 : ℕ) : ℚ) / 60 := rfl
    rw [h]; norm_num

/-- C2: the adherence assessment is "ON TRACK" exactly when
`dist_pct ≥ 90` and `elev_pct ≥ 80`, otherwise "SLIGHTLY BEHIND" exactly
when `dist_pct ≥ 75`, otherwise "BEHIND TARGET"; the boundaries are
closed, so `(90, 80)` is "ON TRACK" and `dist_pct = 89.9` falls through
to the `≥ 75` check (giving "SLIGHTLY BEHIND" whatever `elev_pct` is). -/
theorem c2_assessment_boundaries :
    ∀ d e : ℚ,
      ((assessment d e).1 = "ON TRACK" ↔ 90 ≤ d ∧ 80 ≤ e) ∧
      ((assessment d e).1 = "SLIGHTLY BEHIND" ↔ ¬(90 ≤ d ∧ 80 ≤ e) ∧ 75 ≤ d) ∧
      ((assessment d e).1 = "BEHIND TARGET" ↔ ¬(90 ≤ d ∧ 80 ≤ e) ∧ d < 75) ∧
      (assessment 90 80).1 = "ON TRACK" ∧
      (assessment (899 / 10) e).1 = "SLIGHTLY BEHIND" := by
  intro d e
  refine ⟨?_, ?_, ?_, ?_, ?_⟩
  · by_cases h1 : (90 : ℚ) ≤ d ∧ 80 ≤ e
    · simp [assessment, h1]
    · by_cases h2 : (75 : ℚ) ≤ d <;> simp [assessment, h1, h2]
  · by_cases h1 : (90 : ℚ) ≤ d ∧ 80 ≤ e
    · simp [assessment, h1]
    · by_cases h2 : (75 : ℚ) ≤ d <;> simp [assessment, h1, h2]
  · by_cases h1 : (90 : ℚ) ≤ d ∧ 80 ≤ e
    · simp [assessment, h1]
    · by_cases h2 : (75 : ℚ) ≤ d <;> simp [assessment, h1, h2] <;> linarith
  · norm_num [assessment]
  · have h1 : ¬((90 : ℚ) ≤ 899 / 10 ∧ 80 ≤ e) := by
      rintro ⟨h, -⟩; norm_num at h
    have h2 : (75 : ℚ) ≤ 899 / 10 := by norm_num
    simp [assessment, h1, h2]

/-- C3: the recovery classification is "EARLY RECOVERY" exactly when
`weeks_since < 2`, "RECOVERY PHASE" exactly when `2 ≤ weeks_since < 4`,
"RECOVERED" otherwise; the first two carry the caution ("warning") CSS
class, the last the normal ("success") class; at exactly `2.0` the
status is "RECOVERY PHASE". -/
theorem c3_recovery_boundaries :
    ∀ w : ℚ,
      ((recovery_status w).1 = "EARLY RECOVERY" ↔ w < 2) ∧
      ((recovery_status w).1 = "RECOVERY PHASE" ↔ 2 ≤ w ∧ w < 4) ∧
      ((recovery_status w).1 = "RECOVERED" ↔ 4 ≤ w) ∧
      ((recovery_status w).2 = "warning" ↔ w < 4) ∧
      ((recovery_status w).2 = "success" ↔ 4 ≤ w) ∧
      (recovery_status 2).1 = "RECOVERY PHASE" := by
  intro w
  have hcon : (recovery_status 2).1 = "RECOVERY PHASE" := by norm_num [recovery_status]
  by_cases h1 : w < 2
  · have h2 : w < 4 := by linarith
    refine ⟨?_, ?_, ?_, ?_, ?_, hcon⟩ <;> simp [recovery_status, h1, h2] <;>
      first
      | linarith
      | (intro h; linarith)
  · by_cases h2 : w < 4
    · refine ⟨?_, ?_, ?_, ?_, ?_, hcon⟩ <;> simp [recovery_status, h1, h2] <;>
        first
        | linarith
        | (intro h; linarith)
    · refine ⟨?_, ?_, ?_, ?_, ?_, hcon⟩ <;> simp [recovery_status, h1, h2] <;>
        first
        | linarith
        | (intro h; linarith)

/-- C4: the plan-target lookup falls back to `{40, 300, 4}` for any week
outside the explicit 1..14 entries; every stored percentage is exactly
`100 * actual / target` when the target is positive and `0` when the
target is zero; the stored percentage is not clamped (46.9 actual against
a target of 35 stores 134), only the display bar width is (`min pct
100`, so 100 for that input). -/
theorem c4_plan_comparison :
    (∀ w : Nat, ¬(1 ≤ w ∧ w ≤ 14) → plan_targets w = ⟨40, 300, 4⟩) ∧
    (∀ a t : ℚ, 0 < t → pctOf a t = 100 * a / t) ∧
    (∀ a : ℚ, pctOf a 0 = 0) ∧
    (∀ p : ℚ, bar_width p = min p 100) ∧
    pctOf (469 / 10) 35 = 134 ∧ 100 < pctOf (469 / 10) 35 ∧
    bar_width (pctOf (469 / 10) 35) = 100 := by
  have hpct : pctOf (469 / 10) 35 = 134 := by
    rw [pctOf, if_pos (by norm_num : (0 : ℚ) < 35)]
    norm_num
  refine ⟨?_, ?_, ?_, fun p => rfl, hpct, ?_, ?_⟩
  · intro w hw
    have h1 : (w == 1) = false := by simp; omega
    have h2 : (w == 2) = false := by simp; omega
    have h3 : (w == 3) = false := by simp; omega
    have h4 : (w == 4) = false := by simp; omega
    have h5 : (w == 5) = false := by simp; omega
    have h6 : (w == 6) = false := by simp; omega
    have h7 : (w == 7) = false := by simp; omega
    have h8 : (w == 8) = false := by simp; omega
    have h9 : (w == 9) = false := by simp; omega
    have h10 : (w == 10) = false := by simp; omega
    have h11 : (w == 11) = false := by simp; omega
    have h12 : (w == 12) = false := by simp; omega
    have h13 : (w == 13) = false := by simp; omega
    have h14 : (w == 14) = false := by simp; omega
    simp [plan_targets, plan_table, List.lookup, h1, h2, h3, h4, h5, h6, h7,
      h8, h9, h10, h11, h12, h13, h14]
  · intro a t ht
    rw [pctOf, if_pos ht]
    ring
  · intro a
    simp [pctOf]
  · rw [hpct]; norm_num
  · rw [bar_width, hpct]; norm_num

/-- C5 counterexample: an `Aerobic TE` column that is present but has no
populated row (here a single `NaN` cell) classifies as "LOW LOAD", not
as "N/A" — the `NaN` mean fails both `>` comparisons and the code falls
through to the final `else`. -/
theorem c5_counterexample :
    (load_status (some [none])).1 = "LOW LOAD" ∧
    (load_status (some [none])).1 ≠ "N/A" := by
  constructor <;> decide

/-- How the load classification reads once the column mean is known. -/
theorem load_status_of_mean {vals : List (Option ℚ)} {m : ℚ}
    (hm : meanQ? (vals.filterMap id) = some m) :
    load_status (some vals) =
      if 4 < m then ("HIGH LOAD", "danger")
      else if 3 < m then ("MODERATE LOAD", "success")
      else ("LOW LOAD", "warning") := by
  simp [load_status, hm, nanGT]

/-- C5 (amended): the load status is "N/A" with the neutral class exactly
when the `Aerobic TE` column is absent; when the column is present and
has a populated mean `m`, the classification is "HIGH LOAD" iff `m > 4`,
"MODERATE LOAD" iff `3 < m ≤ 4` and "LOW LOAD" iff `m ≤ 3`; when the
column is present but wholly unpopulated, the `NaN` mean falls through
to "LOW LOAD" (caution) — and in no case is there a division-by-zero
failure. -/
theorem c5_amended_load :
    ∀ vals : List (Option ℚ),
      ((load_status none).1 = "N/A" ∧ (load_status none).2 = "secondary") ∧
      (∀ m : ℚ, meanQ? (vals.filterMap id) = some m →
        ((load_status (some vals)).1 = "HIGH LOAD" ↔ 4 < m) ∧
        ((load_status (some vals)).1 = "MODERATE LOAD" ↔ 3 < m ∧ m ≤ 4) ∧
        ((load_status (some vals)).1 = "LOW LOAD" ↔ m ≤ 3)) ∧
      (vals.filterMap id = [] →
        (load_status (some vals)).1 = "LOW LOAD" ∧
        (load_status (some vals)).2 = "warning") := by
  intro vals
  refine ⟨⟨rfl, rfl⟩, ?_, ?_⟩
  · intro m hm
    rw [load_status_of_mean hm]
    split_ifs with h4 h3
    · exact ⟨iff_of_true rfl h4,
        iff_of_false (by decide) (by rintro ⟨-, hle⟩; linarith),
        iff_of_false (by decide) (by intro hle; linarith)⟩
    · exact ⟨iff_of_false (by decide) h4,
        iff_of_true rfl ⟨h3, by linarith⟩,
        iff_of_false (by decide) (by intro hle; linarith)⟩
    · exact ⟨iff_of_false (by decide) h4,
        iff_of_false (by decide) (by rintro ⟨hgt, -⟩; exact h3 hgt),
        iff_of_true rfl (by linarith)⟩
  · intro he
    constructor <;> simp [load_status, he, meanQ?, nanGT]

/-- C6 counterexample: the cleaner accepts a minus-signed cell and keeps
its negative value; `"-5"` normalizes to `-5.0`, which is not
non-negative. -/
theorem c6_counterexample :
    cleanValue "-5".toList = some (-5) ∧ ¬(0 ≤ (-5 : ℚ)) := by
  constructor
  · have h : cleanValue "-5".toList = some (-((5 : ℕ) : ℚ)) := rfl
    rw [h]; norm_num
  · norm_num

/-- An unsigned float parse is non-negative. -/
theorem floatCore_nonneg {l : List Char} {q : ℚ} (h : floatCore l = some q) :
    0 ≤ q := by
  rw [floatCore.eq_def] at h
  split at h
  · obtain ⟨n, -, rfl⟩ := Option.map_eq_some'.mp h
    exact Nat.cast_nonneg n
  · split at h
    · obtain rfl : _ = q := (Option.some.injEq _ _).mp h
      positivity
    · exact absurd h (by simp)
  · exact absurd h (by simp)

/-- A float parse of text with no minus sign is non-negative. -/
theorem parseFloatQ_nonneg {l : List Char} {q : ℚ} (hneg : '-' ∉ l)
    (h : parseFloatQ l = some q) : 0 ≤ q := by
  rw [parseFloatQ.eq_def] at h
  split at h
  · simp at hneg
  · exact floatCore_nonneg h
  · exact floatCore_nonneg h

/-- C6 (amended): an accepted distance/calorie cell is parsed from the
comma-stripped text, in which no thousands-separator comma remains, and
its value is non-negative whenever the input text carries no minus
sign (the cleaner itself never rejects a negative value). -/
theorem c6_amended_clean (s : List Char) (q : ℚ) (h : cleanValue s = some q) :
    (',' ∉ stripCommas s) ∧
    cleanValue s = parseFloatQ (stripCommas s) ∧
    ('-' ∉ s → 0 ≤ q) := by
  refine ⟨?_, rfl, ?_⟩
  · intro hc
    simp [stripCommas] at hc
  · intro hneg
    have hneg' : '-' ∉ stripCommas s := fun hm => hneg (List.mem_of_mem_filter hm)
    exact parseFloatQ_nonneg hneg' h

/-- C6 witness: the amended statement at the concrete cell `"1,234.5"`,
whose cleaned value is `1234.5`. -/
theorem c6_amended_clean_witness :
    (',' ∉ stripCommas "1,234.5".toList) ∧
    cleanValue "1,234.5".toList = parseFloatQ (stripCommas "1,234.5".toList) ∧
    ('-' ∉ "1,234.5".toList →
      0 ≤ ((1234 : ℕ) : ℚ) + ((5 : ℕ) : ℚ) / (10 : ℚ) ^ (1 : ℕ)) :=
  c6_amended_clean "1,234.5".toList
    (((1234 : ℕ) : ℚ) + ((5 : ℕ) : ℚ) / (10 : ℚ) ^ (1 : ℕ)) rfl

/-- A minimal running row used to instantiate theorems with hypotheses. -/
def sampleRecord (d : Int) (dist : ℚ) : Record :=
  { date := d, activityType := "Running", distance := dist, calories := 0,
    timeMinutes := 0, totalAscent := 0, totalDescent := 0,
    avgHR := none, maxHR := none, aerobicTE := none }

/-- A two-row running frame (dates 0 and 5). -/
def sampleRunning : List Record :=
  [sampleRecord 0 10, sampleRecord 5 12]

/-- The same two rows in the opposite order. -/
def sampleRunningSwapped : List Record :=
  [sampleRecord 5 12, sampleRecord 0 10]

/-- C7: the trailing-4-week window keeps exactly the records with
`date ≥ max(date) − 28`; the stats over it are the window totals, the
record count, the per-run mean (`0` for an empty window, total/count
otherwise), and weekly averages whose divisor is always exactly `4`
regardless of how many weeks hold data. -/
theorem c7_trailing_four_weeks (running : List Record) (m : Int)
    (hm : listMax? (running.map Record.date) = some m) :
    (∀ r, r ∈ recent_4wks running ↔ r ∈ running ∧ m - 28 ≤ r.date) ∧
    (four_week_stats running).total_distance
      = ((recent_4wks running).map Record.distance).sum ∧
    (four_week_stats running).total_elevation
      = ((recent_4wks running).map Record.totalAscent).sum ∧
    (four_week_stats running).total_runs = (recent_4wks running).length ∧
    ((recent_4wks running).length = 0 → (four_week_stats running).avg_distance = 0) ∧
    (0 < (recent_4wks running).length →
      (four_week_stats running).avg_distance
        = (four_week_stats running).total_distance / ((recent_4wks running).length : ℚ)) ∧
    (four_week_stats running).avg_weekly_dist
      = (four_week_stats running).total_distance / 4 ∧
    (four_week_stats running).avg_weekly_elev
      = (four_week_stats running).total_elevation / 4 := by
  refine ⟨?_, rfl, rfl, rfl, ?_, ?_, rfl, rfl⟩
  · intro r
    simp [recent_4wks, hm, List.mem_filter]
  · intro h
    simp [four_week_stats, h]
  · intro h
    simp [four_week_stats, h]

/-- C7 witness: the window membership law and the fixed divisor of 4 at
the concrete two-row frame, whose maximal date is 5. -/
theorem c7_trailing_four_weeks_witness :
    (∀ r, r ∈ recent_4wks sampleRunning ↔ r ∈ sampleRunning ∧ 5 - 28 ≤ r.date) ∧
    (four_week_stats sampleRunning).avg_weekly_dist
      = (four_week_stats sampleRunning).total_distance / 4 :=
  ⟨(c7_trailing_four_weeks sampleRunning 5 rfl).1,
   (c7_trailing_four_weeks sampleRunning 5 rfl).2.2.2.2.2.2.1⟩

/-- C9: re-running the evaluation on the state the first run hands back
gives bit-identical results — the computation reads the frame and the
explicit inputs only, and never writes the state. -/
theorem c9_evaluation_pure :
    ∀ (st : AnalyzerState) (current_week_of_plan : Nat) (now : Int),
      (generate_html_report_st st current_week_of_plan now).2 = st ∧
      generate_html_report_st (generate_html_report_st st current_week_of_plan now).2
          current_week_of_plan now
        = generate_html_report_st st current_week_of_plan now :=
  fun _ _ _ => ⟨rfl, rfl⟩

/-- C10: `tail(10)` keeps all rows when fewer than 10 are present, in
general keeps the last `min 10 n` rows, and over an empty frame the
window is empty so its means are the `NaN` sentinel (`none`) rather
than an error. -/
theorem c10_last_ten_window (l : List Record) (hn : l.length < 10) :
    tailN 10 l = l ∧
    (∀ l' : List Record, (tailN 10 l').length = min 10 l'.length) ∧
    (l = [] →
      meanQ? ((tailN 10 l).filterMap Record.avgHR) = none ∧
      meanQ? ((tailN 10 l).filterMap Record.aerobicTE) = none) := by
  refine ⟨?_, ?_, ?_⟩
  · have h0 : l.length - 10 = 0 := by omega
    simp [tailN, h0]
  · intro l'
    simp [tailN]
    omega
  · intro he
    subst he
    exact ⟨rfl, rfl⟩

/-- C10 witness: the window law at the empty frame. -/
theorem c10_last_ten_window_witness :
    tailN 10 ([] : List Record) = [] ∧
    (∀ l' : List Record, (tailN 10 l').length = min 10 l'.length) ∧
    (([] : List Record) = [] →
      meanQ? ((tailN 10 ([] : List Record)).filterMap Record.avgHR) = none ∧
      meanQ? ((tailN 10 ([] : List Record)).filterMap Record.aerobicTE) = none) :=
  c10_last_ten_window [] (by decide)

/-- A column maximum is invariant under permuting the rows. -/
theorem listMax?_perm {l₁ l₂ : List Int} (hp : l₁.Perm l₂) :
    listMax? l₁ = listMax? l₂ := by
  induction hp with
  | nil => rfl
  | cons x _ ih => simp [listMax?, ih]
  | swap x y l =>
    cases hz : listMax? l with
    | none => simp [listMax?, hz]; split_ifs <;> omega
    | some z => simp [listMax?, hz]; split_ifs <;> omega
  | trans _ _ ih₁ ih₂ => rw [ih₁, ih₂]

/-- A column mean is invariant under permuting the rows. -/
theorem meanQ?_perm {l₁ l₂ : List ℚ} (hp : l₁.Perm l₂) :
    meanQ? l₁ = meanQ? l₂ := by
  by_cases h : l₁ = []
  · subst h
    rw [hp.symm.eq_nil]
  · have h₂ : l₂ ≠ [] := fun he => h ((he ▸ hp).eq_nil)
    rw [meanQ?, meanQ?, if_neg h, if_neg h₂, hp.sum_eq, hp.length_eq]

/-- A week group's aggregates are invariant under permuting the rows. -/
theorem mkBucket_perm {r₁ r₂ : List Record} (hp : r₁.Perm r₂) (k : Int) :
    mkBucket r₁ k = mkBucket r₂ k := by
  have hgrp := hp.filter (fun r => decide (weekOf r.date = k))
  simp only [mkBucket, WeeklyBucket.mk.injEq]
  refine ⟨trivial, ?_, ?_, ?_, ?_, ?_, ?_⟩
  · rw [(hgrp.map Record.distance).sum_eq]
  · rw [(hgrp.map Record.totalAscent).sum_eq]
  · rw [(hgrp.map Record.timeMinutes).sum_eq]
  · exact hgrp.length_eq
  · rw [meanQ?_perm (hgrp.filterMap Record.avgHR)]
  · rw [(hgrp.filterMap Record.aerobicTE).sum_eq]

/-- The emitted bucket sequence is keyed by week ascending. -/
theorem get_weekly_data_sorted (df : List Record) (weeks : Nat) :
    List.Sorted (· ≤ ·) ((get_weekly_data df weeks).map WeeklyBucket.week) := by
  unfold get_weekly_data
  cases hm : listMax? ((get_running_data df).map Record.date) with
  | none => simp [hm]
  | some m =>
    simp only [hm]
    have hmap : ∀ (recent : List Record) (keys : List Int),
        (keys.map (mkBucket recent)).map WeeklyBucket.week = keys := by
      intro recent keys
      rw [List.map_map]
      have hco : (WeeklyBucket.week ∘ mkBucket recent) = id := funext fun k => rfl
      rw [hco, List.map_id]
    rw [hmap]
    exact List.sorted_insertionSort _ _

/-- C8: the weekly aggregation gives the same buckets for any permutation
of the input row order, and its output is ordered by week key ascending. -/
theorem c8_weekly_buckets (l₁ l₂ : List Record) (weeks : Nat) (hp : l₁.Perm l₂) :
    get_weekly_data l₁ weeks = get_weekly_data l₂ weeks ∧
    List.Sorted (· ≤ ·) ((get_weekly_data l₁ weeks).map WeeklyBucket.week) := by
  refine ⟨?_, get_weekly_data_sorted l₁ weeks⟩
  have hrun : (get_running_data l₁).Perm (get_running_data l₂) := by
    unfold get_running_data
    exact hp.filter _
  have hmax : listMax? ((get_running_data l₁).map Record.date)
      = listMax? ((get_running_data l₂).map Record.date) :=
    listMax?_perm (hrun.map Record.date)
  unfold get_weekly_data
  cases hm : listMax? ((get_running_data l₂).map Record.date) with
  | none =>
    have hm1 : listMax? ((get_running_data l₁).map Record.date) = none := by
      rw [hmax, hm]
    simp [hm, hm1]
  | some m =>
    have hm1 : listMax? ((get_running_data l₁).map Record.date) = some m := by
      rw [hmax, hm]
    simp only [hm, hm1]
    have hrec : ((get_running_data l₁).filter
          (fun r => decide (m - 7 * (weeks : Int) ≤ r.date))).Perm
        ((get_running_data l₂).filter
          (fun r => decide (m - 7 * (weeks : Int) ≤ r.date))) :=
      hrun.filter _
    have hkeys : List.insertionSort (· ≤ ·)
          ((((get_running_data l₁).filter
            (fun r => decide (m - 7 * (weeks : Int) ≤ r.date))).map
              (fun r => weekOf r.date)).dedup)
        = List.insertionSort (· ≤ ·)
          ((((get_running_data l₂).filter
            (fun r => decide (m - 7 * (weeks : Int) ≤ r.date))).map
              (fun r => weekOf r.date)).dedup) :=
      List.eq_of_perm_of_sorted
        (((List.perm_insertionSort _ _).trans
          ((hrec.map (fun r => weekOf r.date)).dedup)).trans
          (List.perm_insertionSort _ _).symm)
        (List.sorted_insertionSort _ _) (List.sorted_insertionSort _ _)
    have hbk : mkBucket ((get_running_data l₁).filter
          (fun r => decide (m - 7 * (weeks : Int) ≤ r.date)))
        = mkBucket ((get_running_data l₂).filter
          (fun r => decide (m - 7 * (weeks : Int) ≤ r.date))) :=
      funext (mkBucket_perm hrec)
    rw [hkeys, hbk]

/-- C8 witness: the two-row frame and its transposition aggregate to the
same bucket list, emitted week-ascending. -/
theorem c8_weekly_buckets_witness :
    get_weekly_data sampleRunning 8 = get_weekly_data sampleRunningSwapped 8 ∧
    List.Sorted (· ≤ ·) ((get_weekly_data sampleRunning 8).map WeeklyBucket.week) :=
  c8_weekly_buckets sampleRunning sampleRunningSwapped 8
    (List.Perm.swap (sampleRecord 5 12) (sampleRecord 0 10) [])
